import Mathlib

/-!
Verification of the proc-macro expansion drivers of
compiler/rustc_expand/src/proc_macro.rs: the three drivers (bang, attribute,
derive), their panic-to-diagnostic conversion, the derive output reparsing
loop, and the cross-wired message pipe.

External collaborators (the bridge client run call, the parser, the
tokenization of AST nonterminals, the crossbeam queues) are either taken as
parameters of the embedded functions or modelled from the spec; each such
modelling is marked in its doc comment.
-/

set_option autoImplicit false


/-- A compiler diagnostic: a primary message at a source location, with an
optional help note.  Source locations (spans) are modelled as natural
numbers. -/
structure Diagnostic where
  span : Nat
  msg : String
  help : Option String
  deriving DecidableEq, Repr

/-- The diagnostic handler state, mirroring the span_diagnostic of the parse
session: the list of error diagnostics emitted so far and the running error
count (err_count).  Every diagnostic emitted on the code paths embedded here
is an error, so emission bumps the count by one. -/
structure Handler where
  emitted : List Diagnostic
  errCount : Nat
  deriving DecidableEq, Repr

/-- Emitting an error diagnostic appends it and bumps the error count. -/
def Handler.emit (h : Handler) (d : Diagnostic) : Handler :=
  ⟨h.emitted ++ [d], h.errCount + 1⟩

/-- Emitting a list of error diagnostics in order. -/
def Handler.emitAll (h : Handler) (ds : List Diagnostic) : Handler :=
  ds.foldl Handler.emit h

/-- The payload of a caught extension panic, carrying an optional
human-readable message (PanicMessage and its as_str view). -/
structure PanicPayload where
  msg : Option String
  deriving DecidableEq, Repr

/-- The help note attached for a panic payload: the code formats the payload
message as "message: {s}" when present (proc_macro.rs lines 58-60, 86-88,
141-143). -/
def panicHelp (e : PanicPayload) : Option String :=
  e.msg.map (fun s => "message: " ++ s)

/-- Embedding of BangProcMacro::expand (proc_macro.rs lines 47-65).  The
bridge client run call is the parameter run: it returns either the output
token stream or a panic payload.  On success the stream is returned as is;
on failure one diagnostic "proc macro panicked" is emitted at the call span,
with the payload message as a help note when present, and the ErrorReported
marker is returned (modelled as the error of an Except Unit). -/
def bangExpand {τ : Type} (run : τ → Except PanicPayload τ)
    (h : Handler) (span : Nat) (input : τ) : Handler × Except Unit τ :=
  match run input with
  | .ok ts => (h, .ok ts)
  | .error e => (h.emit ⟨span, "proc macro panicked", panicHelp e⟩, .error ())

/-- Embedding of AttrProcMacro::expand (proc_macro.rs lines 73-93): same as
the bang driver but with two input streams and the message
"custom attribute panicked". -/
def attrExpand {τ : Type} (run : τ → τ → Except PanicPayload τ)
    (h : Handler) (span : Nat) (ann annotated : τ) : Handler × Except Unit τ :=
  match run ann annotated with
  | .ok ts => (h, .ok ts)
  | .error e => (h.emit ⟨span, "custom attribute panicked", panicHelp e⟩, .error ())

/-- Statements, as far as the derive driver inspects them: either an item
statement (StmtKind::Item) or some other kind of statement. -/
inductive Stmt (Item : Type) where
  | itemStmt (it : Item)
  | otherStmt
  deriving DecidableEq, Repr

/-- Whether a statement is an item statement (ast::Stmt::is_item). -/
def Stmt.is_item {Item : Type} : Stmt Item → Bool
  | .itemStmt _ => true
  | .otherStmt => false

/-- The Annotatable input of the derive driver: an item, a statement, or any
of the other variants (which the driver never accepts). -/
inductive Annotatable (Item : Type) where
  | item (it : Item)
  | stmt (s : Stmt Item)
  | other
  deriving DecidableEq, Repr

/-- The interpolated nonterminal built from the input before tokenization:
token::NtItem or token::NtStmt. -/
inductive Nt (Item : Type) where
  | ntItem (it : Item)
  | ntStmt (s : Stmt Item)
  deriving DecidableEq, Repr

/-- Embedding of the input match of ProcMacroDerive::expand (proc_macro.rs
lines 110-123): an Item becomes NtItem with is_stmt false; a Stmt must pass
the assert that it is an item statement and becomes NtStmt with is_stmt
true; any other variant hits unreachable.  The two panics are modelled as
errors of an Except String. -/
def deriveNormalize {Item : Type} : Annotatable Item → Except String (Bool × Nt Item)
  | .item it => .ok (false, .ntItem it)
  | .stmt s =>
    if s.is_item then .ok (true, .ntStmt s)
    else .error "assertion failed: stmt.is_item()"
  | .other => .error "unreachable"

/-- A token of a token stream: an ordinary token (abstract, numbered) or an
interpolated nonterminal (token::Interpolated). -/
inductive Tok (Item : Type) where
  | raw (n : Nat)
  | interp (nt : Nt Item)
  deriving DecidableEq, Repr

/-- A token stream: an ordered sequence of tokens. -/
abbrev TokenStream (Item : Type) := List (Tok Item)

/-- Modelled from the spec: the tokens underlying a nonterminal, given the
token stream itemTokens of each item.  Per the comment at proc_macro.rs
lines 117-119, an NtStmt exposes only the underlying tokens of the wrapped
item.  A non-item statement never reaches tokenization (the assert comes
first); it is mapped to the empty stream. -/
def Nt.underlying {Item : Type} (itemTokens : Item → TokenStream Item) :
    Nt Item → TokenStream Item
  | .ntItem it => itemTokens it
  | .ntStmt (.itemStmt it) => itemTokens it
  | .ntStmt .otherStmt => []

/-- Modelled from the spec: nt_to_tokenstream (external, in rustc_parse)
converts the nonterminal to the token stream of the underlying item. -/
def nt_to_tokenstream {Item : Type} (itemTokens : Item → TokenStream Item)
    (nt : Nt Item) : TokenStream Item :=
  Nt.underlying itemTokens nt

/-- Embedding of the input construction (proc_macro.rs lines 124-129): under
the pretty-printing compatibility hack the nonterminal is passed verbatim as
a single interpolated token; otherwise it is converted by
nt_to_tokenstream. -/
def deriveBuildInput {Item : Type} (hack : Nt Item → Bool)
    (itemTokens : Item → TokenStream Item) (nt : Nt Item) : TokenStream Item :=
  if hack nt then [Tok.interp nt] else nt_to_tokenstream itemTokens nt

/-- Modelled from the spec: the token sequence an extension observes when
reading a stream; an interpolated token is seen only through the underlying
tokens of the wrapped node. -/
def observe {Item : Type} (itemTokens : Item → TokenStream Item) :
    TokenStream Item → TokenStream Item
  | [] => []
  | Tok.raw n :: rest => Tok.raw n :: observe itemTokens rest
  | Tok.interp nt :: rest => Nt.underlying itemTokens nt ++ observe itemTokens rest

/-- One call of parser.parse_item, as the driver observes it: a parsed item
together with the error diagnostics the parser emitted itself while
recovering, the end of the stream (Ok(None)), or a parse error handed back
to the driver for emission (Err(err)). -/
inductive ParseOutcome (Item : Type) where
  | ok (recovered : List Diagnostic) (it : Item)
  | done
  | err (d : Diagnostic)
  deriving DecidableEq, Repr

/-- An output of the derive driver: a bare item, or an item rewrapped as a
statement at a given span (ecx.stmt_item(span, item), proc_macro.rs line
159). -/
inductive AnnotOut (Item : Type) where
  | item (it : Item)
  | stmt (span : Nat) (it : Item)
  deriving DecidableEq, Repr

/-- How one parsed item is pushed into the output list (proc_macro.rs lines
157-162). -/
def wrapItem {Item : Type} (is_stmt : Bool) (span : Nat) (it : Item) : AnnotOut Item :=
  if is_stmt then AnnotOut.stmt span it else AnnotOut.item it

/-- Embedding of the parse loop of ProcMacroDerive::expand (proc_macro.rs
lines 154-169), driven by the list of successive parse_item outcomes: a
parsed item is wrapped and appended; Ok(None) stops the loop; a parse error
is emitted and stops the loop, keeping the items accumulated so far. -/
def parseLoop {Item : Type} (is_stmt : Bool) (span : Nat) :
    List (ParseOutcome Item) → Handler → List (AnnotOut Item) →
    Handler × List (AnnotOut Item)
  | [], h, acc => (h, acc)
  | .done :: _, h, acc => (h, acc)
  | .ok ds it :: rest, h, acc =>
    parseLoop is_stmt span rest (h.emitAll ds) (acc ++ [wrapItem is_stmt span it])
  | .err d :: _, h, acc => (h.emit d, acc)

/-- The summary diagnostic emitted when the error count rose while parsing
the derive output (proc_macro.rs line 173). -/
def summaryDiag (span : Nat) : Diagnostic :=
  ⟨span, "proc-macro derive produced unparseable tokens", none⟩

/-- Embedding of ProcMacroDerive::expand (proc_macro.rs lines 100-177).  The
external collaborators are parameters: hack is the pretty-printing
compatibility predicate, itemTokens gives the token stream of an item, ext
is the bridge client run call, and parse gives the successive parse_item
outcomes of the parser built on a stream.  The result is the final handler
and the produced items; the error of the outer Except String models the two
input-normalization panics. -/
def deriveExpand {Item : Type} (hack : Nt Item → Bool)
    (itemTokens : Item → TokenStream Item)
    (ext : TokenStream Item → Except PanicPayload (TokenStream Item))
    (parse : TokenStream Item → List (ParseOutcome Item))
    (h : Handler) (span : Nat) (a : Annotatable Item) :
    Except String (Handler × List (AnnotOut Item)) :=
  match deriveNormalize a with
  | .error m => .error m
  | .ok (is_stmt, nt) =>
    match ext (deriveBuildInput hack itemTokens nt) with
    | .error e =>
      .ok (h.emit ⟨span, "proc-macro derive panicked", panicHelp e⟩, [])
    | .ok stream =>
      let before := h.errCount
      let res := parseLoop is_stmt span (parse stream) h []
      let h2 := if before < res.fst.errCount then res.fst.emit (summaryDiag span) else res.fst
      .ok (h2, res.snd)

/-- The error diagnostics emitted during the parse loop for a given outcome
script: the recovered ones of each parsed item up to the first stop, plus
the parse error itself when the loop stops on one. -/
def scriptDiags {Item : Type} : List (ParseOutcome Item) → List Diagnostic
  | [] => []
  | .done :: _ => []
  | .ok ds _ :: rest => ds ++ scriptDiags rest
  | .err d :: _ => [d]

/-- The items the parse loop accumulates for a given outcome script. -/
def scriptItems {Item : Type} : List (ParseOutcome Item) → List Item
  | [] => []
  | .done :: _ => []
  | .ok _ it :: rest => it :: scriptItems rest
  | .err _ :: _ => []

/-- The pair of unbounded queues allocated by CrossbeamMessagePipe::new
(proc_macro.rs lines 21-25), modelled from the spec as FIFO lists: queue one
is fed by the sender of endpoint A and drained by the receiver of endpoint
B, queue two is fed by the sender of endpoint B and drained by the receiver
of endpoint A (cross-wired). -/
structure PipeState (T : Type) where
  q1 : List T
  q2 : List T
  deriving DecidableEq, Repr

/-- Send on endpoint A (tx1): enqueue into queue one. -/
def PipeState.sendA {T : Type} (s : PipeState T) (v : T) : PipeState T :=
  ⟨s.q1 ++ [v], s.q2⟩

/-- Send on endpoint B (tx2): enqueue into queue two. -/
def PipeState.sendB {T : Type} (s : PipeState T) (v : T) : PipeState T :=
  ⟨s.q1, s.q2 ++ [v]⟩

/-- Modelled from the spec: receive on endpoint B (rx1) returns the oldest
value of queue one, or none when it is empty and the peer is gone. -/
def PipeState.recvB {T : Type} (s : PipeState T) : Option T × PipeState T :=
  match s.q1 with
  | [] => (none, s)
  | v :: rest => (some v, ⟨rest, s.q2⟩)

/-- Modelled from the spec: receive on endpoint A (rx2) returns the oldest
value of queue two, or none when it is empty and the peer is gone. -/
def PipeState.recvA {T : Type} (s : PipeState T) : Option T × PipeState T :=
  match s.q2 with
  | [] => (none, s)
  | v :: rest => (some v, ⟨s.q1, rest⟩)

/-- A sequence of sends on endpoint A, oldest first. -/
def PipeState.sendAllA {T : Type} : PipeState T → List T → PipeState T
  | s, [] => s
  | s, v :: vs => (s.sendA v).sendAllA vs

/-- A sequence of sends on endpoint B, oldest first. -/
def PipeState.sendAllB {T : Type} : PipeState T → List T → PipeState T
  | s, [] => s
  | s, v :: vs => (s.sendB v).sendAllB vs

/-- n successive receives on endpoint B, collecting the results in order. -/
def PipeState.recvNB {T : Type} : Nat → PipeState T → List (Option T) × PipeState T
  | 0, s => ([], s)
  | n + 1, s =>
    let r := s.recvB
    let r2 := recvNB n r.snd
    (r.fst :: r2.fst, r2.snd)

/-- n successive receives on endpoint A, collecting the results in order. -/
def PipeState.recvNA {T : Type} : Nat → PipeState T → List (Option T) × PipeState T
  | 0, s => ([], s)
  | n + 1, s =>
    let r := s.recvA
    let r2 := recvNA n r.snd
    (r.fst :: r2.fst, r2.snd)

/-- The contract of the derive driver input: only the Item variant and the
Statement variant wrapping an item statement are accepted. -/
def acceptedInput {Item : Type} : Annotatable Item → Prop
  | .item _ => True
  | .stmt s => s.is_item = true
  | .other => False

/-- C3: for every input accepted by the bang or attr driver, if the extension
call succeeds then the driver returns exactly the token stream the extension
produced, with the handler untouched: no transformation on the success
path. -/
theorem C3_success_identity {τ : Type}
    (run1 : τ → Except PanicPayload τ) (run2 : τ → τ → Except PanicPayload τ)
    (h : Handler) (span : Nat) (input ann annotated ts1 ts2 : τ)
    (h1 : run1 input = .ok ts1) (h2 : run2 ann annotated = .ok ts2) :
    bangExpand run1 h span input = (h, .ok ts1) ∧
    attrExpand run2 h span ann annotated = (h, .ok ts2) := by
  constructor
  · simp [bangExpand, h1]
  · simp [attrExpand, h2]

/-- Witness for C3 at concrete inputs: the identity extension on lists of
naturals. -/
theorem C3_success_identity_witness :
    (fun (ts : List Nat) => (.ok ts : Except PanicPayload (List Nat))) [1, 2] = .ok [1, 2] ∧
    (fun (a b : List Nat) => (.ok (a ++ b) : Except PanicPayload (List Nat))) [1] [2] = .ok [1, 2] ∧
    (bangExpand (fun ts => .ok ts) ⟨[], 0⟩ 7 [1, 2] = (⟨[], 0⟩, .ok [1, 2]) ∧
     attrExpand (fun a b => .ok (a ++ b)) ⟨[], 0⟩ 7 [1] [2] = (⟨[], 0⟩, .ok [1, 2])) :=
  ⟨rfl, rfl,
    C3_success_identity (fun ts => .ok ts) (fun a b => .ok (a ++ b))
      ⟨[], 0⟩ 7 [1, 2] [1] [2] [1, 2] [1, 2] rfl rfl⟩

/-- C6: a failed bang expansion emits one diagnostic at the call span with
primary message "proc macro panicked" and the payload message attached as a
help note when present, and returns the ErrorReported marker rather than a
silent empty result; the attr driver has the same contract with primary
message "custom attribute panicked". -/
theorem C6_panic_diagnostics {τ : Type}
    (run1 : τ → Except PanicPayload τ) (run2 : τ → τ → Except PanicPayload τ)
    (h : Handler) (span : Nat) (input ann annotated : τ) (e1 e2 : PanicPayload)
    (h1 : run1 input = .error e1) (h2 : run2 ann annotated = .error e2) :
    bangExpand run1 h span input =
      (h.emit ⟨span, "proc macro panicked", panicHelp e1⟩, .error ()) ∧
    attrExpand run2 h span ann annotated =
      (h.emit ⟨span, "custom attribute panicked", panicHelp e2⟩, .error ()) := by
  constructor
  · simp [bangExpand, h1]
  · simp [attrExpand, h2]

/-- Witness for C6 at concrete inputs: extensions that panic with message
"boom" and with no message. -/
theorem C6_panic_diagnostics_witness :
    (fun (_ : List Nat) => (.error ⟨some "boom"⟩ : Except PanicPayload (List Nat))) [] = .error ⟨some "boom"⟩ ∧
    (fun (_ _ : List Nat) => (.error ⟨none⟩ : Except PanicPayload (List Nat))) [] [] = .error ⟨none⟩ ∧
    (bangExpand (fun _ => .error ⟨some "boom"⟩) ⟨[], 0⟩ 5 ([] : List Nat) =
       (⟨[⟨5, "proc macro panicked", some "message: boom"⟩], 1⟩, .error ()) ∧
     attrExpand (fun _ _ => .error ⟨none⟩) ⟨[], 0⟩ 5 ([] : List Nat) [] =
       (⟨[⟨5, "custom attribute panicked", none⟩], 1⟩, .error ())) :=
  ⟨rfl, rfl,
    C6_panic_diagnostics (fun _ => .error ⟨some "boom"⟩) (fun _ _ => .error ⟨none⟩)
      ⟨[], 0⟩ 5 [] [] [] ⟨some "boom"⟩ ⟨none⟩ rfl rfl⟩

lemma Handler.emitAll_spec : ∀ (ds : List Diagnostic) (h : Handler),
    Handler.emitAll h ds = ⟨h.emitted ++ ds, h.errCount + ds.length⟩
  | [], h => by simp [Handler.emitAll]
  | d :: ds, h => by
    have ih := Handler.emitAll_spec ds (h.emit d)
    simp only [Handler.emitAll, List.foldl_cons] at *
    rw [ih]
    simp [Handler.emit, Nat.add_comm, Nat.add_assoc, Nat.add_left_comm]

/-- Full characterization of the parse loop: it emits exactly the script
diagnostics and appends exactly the wrapped script items. -/
lemma parseLoop_spec {Item : Type} (is_stmt : Bool) (span : Nat) :
    ∀ (outs : List (ParseOutcome Item)) (h : Handler) (acc : List (AnnotOut Item)),
    parseLoop is_stmt span outs h acc =
      (⟨h.emitted ++ scriptDiags outs, h.errCount + (scriptDiags outs).length⟩,
       acc ++ (scriptItems outs).map (wrapItem is_stmt span))
  | [], h, acc => by simp [parseLoop, scriptDiags, scriptItems]
  | .done :: rest, h, acc => by simp [parseLoop, scriptDiags, scriptItems]
  | .ok ds it :: rest, h, acc => by
    have ih := parseLoop_spec is_stmt span rest (h.emitAll ds) (acc ++ [wrapItem is_stmt span it])
    simp only [parseLoop, scriptDiags, scriptItems]
    rw [ih, Handler.emitAll_spec]
    simp [List.append_assoc, Nat.add_assoc]
  | .err d :: rest, h, acc => by simp [parseLoop, scriptDiags, scriptItems, Handler.emit]

/-- Characterization of a derive expansion that reaches the output-parsing
phase: the driver emits the script diagnostics, appends the summary
diagnostic exactly when at least one error was emitted during the loop, and
returns the wrapped script items. -/
lemma deriveExpand_parse_spec {Item : Type} (hack : Nt Item → Bool)
    (itemTokens : Item → TokenStream Item)
    (ext : TokenStream Item → Except PanicPayload (TokenStream Item))
    (parse : TokenStream Item → List (ParseOutcome Item))
    (h : Handler) (span : Nat) (a : Annotatable Item)
    (is_stmt : Bool) (nt : Nt Item) (stream : TokenStream Item)
    (hn : deriveNormalize a = .ok (is_stmt, nt))
    (he : ext (deriveBuildInput hack itemTokens nt) = .ok stream) :
    deriveExpand hack itemTokens ext parse h span a =
      .ok ((if 0 < (scriptDiags (parse stream)).length
            then Handler.emit
              ⟨h.emitted ++ scriptDiags (parse stream),
               h.errCount + (scriptDiags (parse stream)).length⟩ (summaryDiag span)
            else ⟨h.emitted ++ scriptDiags (parse stream),
                  h.errCount + (scriptDiags (parse stream)).length⟩),
           (scriptItems (parse stream)).map (wrapItem is_stmt span)) := by
  unfold deriveExpand
  rw [hn]
  dsimp only
  rw [he]
  dsimp only
  simp only [parseLoop_spec, List.nil_append]
  have hiff : h.errCount < h.errCount + (scriptDiags (parse stream)).length ↔
      0 < (scriptDiags (parse stream)).length := by omega
  by_cases hc : 0 < (scriptDiags (parse stream)).length
  · simp [hiff, hc]
  · simp [hiff, hc]

lemma scriptDiags_okPrefix {Item : Type} (its : List Item) (tail : List (ParseOutcome Item)) :
    scriptDiags (its.map (ParseOutcome.ok []) ++ tail) = scriptDiags tail := by
  induction its with
  | nil => rfl
  | cons it its ih => simpa [scriptDiags] using ih

lemma scriptItems_okPrefix {Item : Type} (its : List Item) (tail : List (ParseOutcome Item)) :
    scriptItems (its.map (ParseOutcome.ok []) ++ tail) = its ++ scriptItems tail := by
  induction its with
  | nil => rfl
  | cons it its ih => simp [scriptItems, ih]

lemma deriveNormalize_stmt_iff {Item : Type} (a : Annotatable Item)
    (is_stmt : Bool) (nt : Nt Item) (hn : deriveNormalize a = .ok (is_stmt, nt)) :
    is_stmt = true ↔ ∃ s, a = Annotatable.stmt s := by
  cases a with
  | item it =>
    simp only [deriveNormalize, Except.ok.injEq, Prod.mk.injEq] at hn
    simp [← hn.1]
  | stmt s =>
    by_cases hsi : s.is_item
    · simp only [deriveNormalize, hsi, if_true, Except.ok.injEq, Prod.mk.injEq] at hn
      simp only [← hn.1, true_iff]
      exact ⟨s, rfl⟩
    · simp [deriveNormalize, hsi] at hn
  | other => simp [deriveNormalize] at hn

/-- C4: a derive expansion whose extension returns N syntactically valid
items with no parse errors produces exactly those N items in parse order,
each rewrapped as a statement at the call span exactly when the input was a
statement (and left a bare item otherwise), with no diagnostic emitted. -/
theorem C4_success_items {Item : Type} (hack : Nt Item → Bool)
    (itemTokens : Item → TokenStream Item)
    (ext : TokenStream Item → Except PanicPayload (TokenStream Item))
    (parse : TokenStream Item → List (ParseOutcome Item))
    (h : Handler) (span : Nat) (a : Annotatable Item)
    (is_stmt : Bool) (nt : Nt Item) (stream : TokenStream Item) (its : List Item)
    (hn : deriveNormalize a = .ok (is_stmt, nt))
    (he : ext (deriveBuildInput hack itemTokens nt) = .ok stream)
    (hp : parse stream = its.map (ParseOutcome.ok []) ++ [ParseOutcome.done]) :
    deriveExpand hack itemTokens ext parse h span a =
      .ok (h, its.map (wrapItem is_stmt span)) ∧
    (is_stmt = true ↔ ∃ s, a = Annotatable.stmt s) := by
  refine ⟨?_, deriveNormalize_stmt_iff a is_stmt nt hn⟩
  have hs := deriveExpand_parse_spec hack itemTokens ext parse h span a is_stmt nt stream hn he
  rw [hp, scriptDiags_okPrefix, scriptItems_okPrefix] at hs
  simpa [scriptDiags, scriptItems] using hs

/-- Witness for C4 at concrete inputs: a statement input whose extension
output parses as two items. -/
theorem C4_success_items_witness :
    deriveNormalize (Annotatable.stmt (Stmt.itemStmt (0 : Nat))) =
      .ok (true, Nt.ntStmt (Stmt.itemStmt 0)) ∧
    (fun (_ : TokenStream Nat) => (.ok [] : Except PanicPayload (TokenStream Nat)))
      (deriveBuildInput (fun _ => false) (fun _ => []) (Nt.ntStmt (Stmt.itemStmt 0))) = .ok [] ∧
    (fun (_ : TokenStream Nat) => [ParseOutcome.ok [] 8, ParseOutcome.ok [] 9, ParseOutcome.done]) [] =
      [8, 9].map (ParseOutcome.ok []) ++ [ParseOutcome.done] ∧
    (deriveExpand (fun _ => false) (fun _ => []) (fun _ => .ok [])
        (fun _ => [ParseOutcome.ok [] 8, ParseOutcome.ok [] 9, ParseOutcome.done])
        ⟨[], 0⟩ 5 (Annotatable.stmt (Stmt.itemStmt 0)) =
      .ok (⟨[], 0⟩, [8, 9].map (wrapItem true 5)) ∧
     (true = true ↔ ∃ s, Annotatable.stmt (Stmt.itemStmt (0 : Nat)) = Annotatable.stmt s)) :=
  ⟨rfl, rfl, rfl,
    C4_success_items (fun _ => false) (fun _ => []) (fun _ => .ok [])
      (fun _ => [ParseOutcome.ok [] 8, ParseOutcome.ok [] 9, ParseOutcome.done])
      ⟨[], 0⟩ 5 (Annotatable.stmt (Stmt.itemStmt 0)) true (Nt.ntStmt (Stmt.itemStmt 0)) [] [8, 9]
      rfl rfl rfl⟩

/-- C1 fails as stated: with a parse script that yields one item and then a
parse error, the driver returns that item (the items parsed before the error
are not discarded) and emits two diagnostics, not one. -/
theorem C1_counterexample :
    deriveExpand (fun _ => false) (fun _ => []) (fun _ => .ok [])
        (fun _ => [ParseOutcome.ok [] 7, ParseOutcome.err ⟨3, "expected item", none⟩])
        ⟨[], 0⟩ 5 (Annotatable.item (0 : Nat)) =
      .ok (⟨[⟨3, "expected item", none⟩, summaryDiag 5], 2⟩, [AnnotOut.item 7]) ∧
    [AnnotOut.item (7 : Nat)] ≠ [] ∧
    ([⟨3, "expected item", none⟩, summaryDiag 5] : List Diagnostic).length ≠ 1 := by
  refine ⟨rfl, by simp, by simp⟩

/-- C1 amended: if the extension output fails to parse at item K, the driver
emits the parse diagnostic followed by the summary diagnostic (two
diagnostics total) and returns the K-1 items parsed before the error, which
are kept in the output, not discarded. -/
theorem C1_amended_parse_error {Item : Type} (hack : Nt Item → Bool)
    (itemTokens : Item → TokenStream Item)
    (ext : TokenStream Item → Except PanicPayload (TokenStream Item))
    (parse : TokenStream Item → List (ParseOutcome Item))
    (h : Handler) (span : Nat) (a : Annotatable Item)
    (is_stmt : Bool) (nt : Nt Item) (stream : TokenStream Item)
    (its : List Item) (d : Diagnostic) (rest : List (ParseOutcome Item))
    (hn : deriveNormalize a = .ok (is_stmt, nt))
    (he : ext (deriveBuildInput hack itemTokens nt) = .ok stream)
    (hp : parse stream = its.map (ParseOutcome.ok []) ++ ParseOutcome.err d :: rest) :
    deriveExpand hack itemTokens ext parse h span a =
      .ok ((h.emit d).emit (summaryDiag span), its.map (wrapItem is_stmt span)) := by
  have hs := deriveExpand_parse_spec hack itemTokens ext parse h span a is_stmt nt stream hn he
  rw [hp, scriptDiags_okPrefix, scriptItems_okPrefix] at hs
  simpa [scriptDiags, scriptItems, Handler.emit] using hs

/-- Witness for C1 amended: the concrete scenario of the counterexample. -/
theorem C1_amended_parse_error_witness :
    deriveNormalize (Annotatable.item (0 : Nat)) = .ok (false, Nt.ntItem 0) ∧
    (fun (_ : TokenStream Nat) => (.ok [] : Except PanicPayload (TokenStream Nat)))
      (deriveBuildInput (fun _ => false) (fun _ => []) (Nt.ntItem 0)) = .ok [] ∧
    (fun (_ : TokenStream Nat) => [ParseOutcome.ok [] 7, ParseOutcome.err ⟨3, "expected item", none⟩]) [] =
      [7].map (ParseOutcome.ok []) ++ ParseOutcome.err ⟨3, "expected item", none⟩ :: [] ∧
    deriveExpand (fun _ => false) (fun _ => []) (fun _ => .ok [])
        (fun _ => [ParseOutcome.ok [] 7, ParseOutcome.err ⟨3, "expected item", none⟩])
        ⟨[], 0⟩ 5 (Annotatable.item (0 : Nat)) =
      .ok ((Handler.emit ⟨[], 0⟩ ⟨3, "expected item", none⟩).emit (summaryDiag 5),
           [7].map (wrapItem false 5)) :=
  ⟨rfl, rfl, rfl,
    C1_amended_parse_error (fun _ => false) (fun _ => []) (fun _ => .ok [])
      (fun _ => [ParseOutcome.ok [] 7, ParseOutcome.err ⟨3, "expected item", none⟩])
      ⟨[], 0⟩ 5 (Annotatable.item 0) false (Nt.ntItem 0) [] [7] ⟨3, "expected item", none⟩ []
      rfl rfl rfl⟩

/-- C7: in every derive expansion that reaches the output-parsing phase, the
driver compares the error count after the loop against the snapshot taken
before parsing, and appends the single summary diagnostic "proc-macro derive
produced unparseable tokens" at the call span exactly when the count rose,
that is, exactly when at least one error diagnostic was emitted during the
parse loop. -/
theorem C7_summary_gating {Item : Type} (hack : Nt Item → Bool)
    (itemTokens : Item → TokenStream Item)
    (ext : TokenStream Item → Except PanicPayload (TokenStream Item))
    (parse : TokenStream Item → List (ParseOutcome Item))
    (h : Handler) (span : Nat) (a : Annotatable Item)
    (is_stmt : Bool) (nt : Nt Item) (stream : TokenStream Item)
    (hn : deriveNormalize a = .ok (is_stmt, nt))
    (he : ext (deriveBuildInput hack itemTokens nt) = .ok stream) :
    ∃ hf items,
      deriveExpand hack itemTokens ext parse h span a = .ok (hf, items) ∧
      hf.emitted = h.emitted ++ scriptDiags (parse stream) ++
        (if 0 < (scriptDiags (parse stream)).length then [summaryDiag span] else []) ∧
      hf.errCount = h.errCount + (scriptDiags (parse stream)).length +
        (if 0 < (scriptDiags (parse stream)).length then 1 else 0) := by
  have hs := deriveExpand_parse_spec hack itemTokens ext parse h span a is_stmt nt stream hn he
  by_cases hc : 0 < (scriptDiags (parse stream)).length
  · rw [if_pos hc] at hs
    exact ⟨_, _, hs, by simp [Handler.emit, hc], by simp [Handler.emit, hc]⟩
  · rw [if_neg hc] at hs
    exact ⟨_, _, hs, by simp [hc], by simp [hc]⟩

/-- Witness for C7 at concrete inputs: a parse script that immediately hits a
parse error. -/
theorem C7_summary_gating_witness :
    deriveNormalize (Annotatable.item (0 : Nat)) = .ok (false, Nt.ntItem 0) ∧
    (fun (_ : TokenStream Nat) => (.ok [] : Except PanicPayload (TokenStream Nat)))
      (deriveBuildInput (fun _ => false) (fun _ => []) (Nt.ntItem 0)) = .ok [] ∧
    ∃ hf items,
      deriveExpand (fun _ => false) (fun _ => [])
          (fun _ => (.ok [] : Except PanicPayload (TokenStream Nat)))
          (fun _ => [ParseOutcome.err ⟨3, "expected item", none⟩])
          ⟨[], 0⟩ 5 (Annotatable.item 0) = .ok (hf, items) ∧
      hf.emitted = [] ++
        scriptDiags ([ParseOutcome.err ⟨3, "expected item", none⟩] : List (ParseOutcome Nat)) ++
        (if 0 < (scriptDiags ([ParseOutcome.err ⟨3, "expected item", none⟩] : List (ParseOutcome Nat))).length
         then [summaryDiag 5] else []) ∧
      hf.errCount = 0 +
        (scriptDiags ([ParseOutcome.err ⟨3, "expected item", none⟩] : List (ParseOutcome Nat))).length +
        (if 0 < (scriptDiags ([ParseOutcome.err ⟨3, "expected item", none⟩] : List (ParseOutcome Nat))).length
         then 1 else 0) :=
  ⟨rfl, rfl,
    C7_summary_gating (fun _ => false) (fun _ => []) (fun _ => .ok [])
      (fun _ => [ParseOutcome.err ⟨3, "expected item", none⟩])
      ⟨[], 0⟩ 5 (Annotatable.item 0) false (Nt.ntItem 0) [] rfl rfl⟩

/-- C10: the summary diagnostic is gated on the session-wide error count, so
a derive whose output hits a hard parse error gets two diagnostics, the
parse error itself and the summary, and an unrelated error emitted by the
parser while it recovered during the loop also triggers the summary. -/
theorem C10_session_count_gating {Item : Type} (hack : Nt Item → Bool)
    (itemTokens : Item → TokenStream Item)
    (ext : TokenStream Item → Except PanicPayload (TokenStream Item))
    (parse : TokenStream Item → List (ParseOutcome Item))
    (h : Handler) (span : Nat) (a : Annotatable Item)
    (is_stmt : Bool) (nt : Nt Item) (stream : TokenStream Item)
    (hn : deriveNormalize a = .ok (is_stmt, nt))
    (he : ext (deriveBuildInput hack itemTokens nt) = .ok stream) :
    (∀ (its : List Item) (d : Diagnostic) (rest : List (ParseOutcome Item)),
      parse stream = its.map (ParseOutcome.ok []) ++ ParseOutcome.err d :: rest →
      deriveExpand hack itemTokens ext parse h span a =
        .ok ((h.emit d).emit (summaryDiag span), its.map (wrapItem is_stmt span))) ∧
    (∀ (d : Diagnostic) (it : Item) (rest : List (ParseOutcome Item)),
      parse stream = ParseOutcome.ok [d] it :: ParseOutcome.done :: rest →
      deriveExpand hack itemTokens ext parse h span a =
        .ok ((h.emit d).emit (summaryDiag span), [wrapItem is_stmt span it])) := by
  constructor
  · intro its d rest hp
    have hs := deriveExpand_parse_spec hack itemTokens ext parse h span a is_stmt nt stream hn he
    rw [hp, scriptDiags_okPrefix, scriptItems_okPrefix] at hs
    simpa [scriptDiags, scriptItems, Handler.emit] using hs
  · intro d it rest hp
    have hs := deriveExpand_parse_spec hack itemTokens ext parse h span a is_stmt nt stream hn he
    rw [hp] at hs
    simpa [scriptDiags, scriptItems, Handler.emit] using hs

/-- Witness for C10 at concrete inputs: one script that stops on a hard parse
error after one item, and one script whose single parsed item had a
recovered error. -/
theorem C10_session_count_gating_witness :
    deriveNormalize (Annotatable.item (0 : Nat)) = .ok (false, Nt.ntItem 0) ∧
    deriveExpand (fun _ => false) (fun _ => [])
        (fun _ => (.ok [] : Except PanicPayload (TokenStream Nat)))
        (fun _ => [ParseOutcome.ok [] 7, ParseOutcome.err ⟨3, "expected item", none⟩])
        ⟨[], 0⟩ 5 (Annotatable.item 0) =
      .ok ((Handler.emit ⟨[], 0⟩ ⟨3, "expected item", none⟩).emit (summaryDiag 5),
           [AnnotOut.item 7]) ∧
    deriveExpand (fun _ => false) (fun _ => [])
        (fun _ => (.ok [] : Except PanicPayload (TokenStream Nat)))
        (fun _ => [ParseOutcome.ok [⟨4, "unrelated error", none⟩] 7, ParseOutcome.done])
        ⟨[], 0⟩ 5 (Annotatable.item 0) =
      .ok ((Handler.emit ⟨[], 0⟩ ⟨4, "unrelated error", none⟩).emit (summaryDiag 5),
           [AnnotOut.item 7]) :=
  ⟨rfl,
    (C10_session_count_gating (fun _ => false) (fun _ => []) (fun _ => .ok [])
      (fun _ => [ParseOutcome.ok [] 7, ParseOutcome.err ⟨3, "expected item", none⟩])
      ⟨[], 0⟩ 5 (Annotatable.item 0) false (Nt.ntItem 0) [] rfl rfl).1
      [7] ⟨3, "expected item", none⟩ [] rfl,
    (C10_session_count_gating (fun _ => false) (fun _ => []) (fun _ => .ok [])
      (fun _ => [ParseOutcome.ok [⟨4, "unrelated error", none⟩] 7, ParseOutcome.done])
      ⟨[], 0⟩ 5 (Annotatable.item 0) false (Nt.ntItem 0) [] rfl rfl).2
      ⟨4, "unrelated error", none⟩ 7 [] rfl⟩

/-- C2 fails as stated: when the extension panics with message "boom", the
single emitted diagnostic carries the help text "message: boom", which is the
panic message prefixed with "message: ", not the panic message itself. -/
theorem C2_counterexample :
    (bangExpand (fun _ => .error ⟨some "boom"⟩) ⟨[], 0⟩ 5 ([] : List Nat)).fst.emitted =
      [⟨5, "proc macro panicked", some "message: boom"⟩] ∧
    some "message: boom" ≠ some "boom" := by
  exact ⟨rfl, by decide⟩

/-- C2 amended: when the extension panics with payload message M, each of the
three drivers emits exactly one diagnostic, whose help text is "message: "
followed by M when M is present (and no help note otherwise), and produces
zero output: the bang and attr drivers return the error marker and the
derive driver returns the empty item list. -/
theorem C2_amended_panic_behavior {Item τ : Type}
    (run1 : τ → Except PanicPayload τ) (run2 : τ → τ → Except PanicPayload τ)
    (hack : Nt Item → Bool) (itemTokens : Item → TokenStream Item)
    (ext : TokenStream Item → Except PanicPayload (TokenStream Item))
    (parse : TokenStream Item → List (ParseOutcome Item))
    (h : Handler) (span : Nat) (input ann annotated : τ)
    (a : Annotatable Item) (is_stmt : Bool) (nt : Nt Item) (e : PanicPayload)
    (hn : deriveNormalize a = .ok (is_stmt, nt))
    (h1 : run1 input = .error e) (h2 : run2 ann annotated = .error e)
    (h3 : ext (deriveBuildInput hack itemTokens nt) = .error e) :
    bangExpand run1 h span input =
      (h.emit ⟨span, "proc macro panicked", panicHelp e⟩, .error ()) ∧
    attrExpand run2 h span ann annotated =
      (h.emit ⟨span, "custom attribute panicked", panicHelp e⟩, .error ()) ∧
    deriveExpand hack itemTokens ext parse h span a =
      .ok (h.emit ⟨span, "proc-macro derive panicked", panicHelp e⟩, []) := by
  refine ⟨by simp [bangExpand, h1], by simp [attrExpand, h2], ?_⟩
  unfold deriveExpand
  rw [hn]
  dsimp only
  rw [h3]

/-- Witness for C2 amended at concrete inputs: every driver panics with
message "boom". -/
theorem C2_amended_panic_behavior_witness :
    deriveNormalize (Annotatable.item (0 : Nat)) = .ok (false, Nt.ntItem 0) ∧
    (bangExpand (fun _ => .error ⟨some "boom"⟩) ⟨[], 0⟩ 5 ([] : List Nat) =
      (Handler.emit ⟨[], 0⟩ ⟨5, "proc macro panicked", panicHelp ⟨some "boom"⟩⟩, .error ()) ∧
     attrExpand (fun _ _ => .error ⟨some "boom"⟩) ⟨[], 0⟩ 5 ([] : List Nat) [] =
      (Handler.emit ⟨[], 0⟩ ⟨5, "custom attribute panicked", panicHelp ⟨some "boom"⟩⟩, .error ()) ∧
     deriveExpand (fun _ => false) (fun _ => [])
        (fun _ => (.error ⟨some "boom"⟩ : Except PanicPayload (TokenStream Nat)))
        (fun _ => [ParseOutcome.done]) ⟨[], 0⟩ 5 (Annotatable.item 0) =
      .ok (Handler.emit ⟨[], 0⟩ ⟨5, "proc-macro derive panicked", panicHelp ⟨some "boom"⟩⟩, [])) :=
  ⟨rfl,
    C2_amended_panic_behavior (fun _ => .error ⟨some "boom"⟩) (fun _ _ => .error ⟨some "boom"⟩)
      (fun _ => false) (fun _ => []) (fun _ => .error ⟨some "boom"⟩) (fun _ => [ParseOutcome.done])
      ⟨[], 0⟩ 5 [] [] [] (Annotatable.item 0) false (Nt.ntItem 0) ⟨some "boom"⟩
      rfl rfl rfl rfl⟩

lemma observe_raw {Item : Type} (itemTokens : Item → TokenStream Item) :
    ∀ ts : TokenStream Item, (∀ t ∈ ts, ∃ n, t = Tok.raw n) →
      observe itemTokens ts = ts
  | [], _ => rfl
  | Tok.raw n :: rest, hr => by
    have ih := observe_raw itemTokens rest (fun t ht => hr t (List.mem_cons_of_mem _ ht))
    simp [observe, ih]
  | Tok.interp nt :: rest, hr => by
    obtain ⟨n, hn⟩ := hr (Tok.interp nt) (List.mem_cons_self _ _)
    cases hn

/-- C5: for a statement-wrapping-an-item input the driver passes the assert
that the statement is an item statement (the normalization succeeds, with
is_stmt recorded true), and the token stream built for the extension is
observed as exactly the tokens of the bare inner item, whether or not the
compatibility hack applies: no statement wrapper syntax is visible. -/
theorem C5_stmt_sees_item_tokens {Item : Type} (hack : Nt Item → Bool)
    (itemTokens : Item → TokenStream Item) (it : Item)
    (hraw : ∀ t ∈ itemTokens it, ∃ n, t = Tok.raw n) :
    deriveNormalize (Annotatable.stmt (Stmt.itemStmt it)) =
      .ok (true, Nt.ntStmt (Stmt.itemStmt it)) ∧
    observe itemTokens (deriveBuildInput hack itemTokens (Nt.ntStmt (Stmt.itemStmt it))) =
      itemTokens it := by
  refine ⟨rfl, ?_⟩
  unfold deriveBuildInput
  by_cases hc : hack (Nt.ntStmt (Stmt.itemStmt it)) = true
  · simp [hc, observe, Nt.underlying]
  · simp only [Bool.not_eq_true] at hc
    simp [hc, nt_to_tokenstream, Nt.underlying, observe_raw itemTokens (itemTokens it) hraw]

/-- Witness for C5 at a concrete input: an item whose tokens are two raw
tokens, under a hack predicate that applies. -/
theorem C5_stmt_sees_item_tokens_witness :
    (∀ t ∈ (fun (_ : Nat) => ([Tok.raw 1, Tok.raw 2] : TokenStream Nat)) 0, ∃ n, t = Tok.raw n) ∧
    (deriveNormalize (Annotatable.stmt (Stmt.itemStmt (0 : Nat))) =
      .ok (true, Nt.ntStmt (Stmt.itemStmt 0)) ∧
     observe (fun _ => ([Tok.raw 1, Tok.raw 2] : TokenStream Nat))
        (deriveBuildInput (fun _ => true) (fun _ => ([Tok.raw 1, Tok.raw 2] : TokenStream Nat))
          (Nt.ntStmt (Stmt.itemStmt 0))) =
      (fun (_ : Nat) => ([Tok.raw 1, Tok.raw 2] : TokenStream Nat)) 0) := by
  have hraw : ∀ t ∈ (fun (_ : Nat) => ([Tok.raw 1, Tok.raw 2] : TokenStream Nat)) 0,
      ∃ n, t = Tok.raw n := by
    intro t ht
    simp only [List.mem_cons, List.not_mem_nil, or_false] at ht
    rcases ht with h | h
    · exact ⟨1, h⟩
    · exact ⟨2, h⟩
  exact ⟨hraw,
    C5_stmt_sees_item_tokens (fun _ => true)
      (fun _ => ([Tok.raw 1, Tok.raw 2] : TokenStream Nat)) 0 hraw⟩

/-- C9: under the precondition that the input is an Item or a
Statement-wrapping-an-item, the input normalization of the derive driver
never takes the unreachable branch and its assert holds: it returns
successfully, with is_stmt recorded true exactly for the statement
variant. -/
theorem C9_accepted_variants {Item : Type} (a : Annotatable Item)
    (ha : acceptedInput a) :
    ∃ is_stmt nt, deriveNormalize a = .ok (is_stmt, nt) ∧
      (is_stmt = true ↔ ∃ s, a = Annotatable.stmt s) := by
  cases a with
  | item it =>
    exact ⟨false, Nt.ntItem it, rfl, by simp⟩
  | stmt s =>
    have hs : s.is_item = true := ha
    exact ⟨true, Nt.ntStmt s, by simp [deriveNormalize, hs], by simp⟩
  | other => cases ha

/-- Witness for C9 at concrete inputs: a statement wrapping an item. -/
theorem C9_accepted_variants_witness :
    acceptedInput (Annotatable.stmt (Stmt.itemStmt (0 : Nat))) ∧
    ∃ is_stmt nt,
      deriveNormalize (Annotatable.stmt (Stmt.itemStmt (0 : Nat))) = .ok (is_stmt, nt) ∧
      (is_stmt = true ↔ ∃ s, Annotatable.stmt (Stmt.itemStmt (0 : Nat)) = Annotatable.stmt s) :=
  ⟨rfl, C9_accepted_variants (Annotatable.stmt (Stmt.itemStmt 0)) rfl⟩

lemma PipeState.sendAllA_spec {T : Type} :
    ∀ (xs : List T) (s : PipeState T), s.sendAllA xs = ⟨s.q1 ++ xs, s.q2⟩
  | [], s => by simp [PipeState.sendAllA]
  | v :: vs, s => by
    rw [PipeState.sendAllA, PipeState.sendAllA_spec vs]
    simp [PipeState.sendA]

lemma PipeState.sendAllB_spec {T : Type} :
    ∀ (xs : List T) (s : PipeState T), s.sendAllB xs = ⟨s.q1, s.q2 ++ xs⟩
  | [], s => by simp [PipeState.sendAllB]
  | v :: vs, s => by
    rw [PipeState.sendAllB, PipeState.sendAllB_spec vs]
    simp [PipeState.sendB]

lemma PipeState.recvNB_spec {T : Type} :
    ∀ (l q2 : List T), PipeState.recvNB l.length ⟨l, q2⟩ = (l.map some, ⟨[], q2⟩)
  | [], q2 => rfl
  | v :: vs, q2 => by
    simp [PipeState.recvNB, PipeState.recvB, PipeState.recvNB_spec vs q2]

lemma PipeState.recvNA_spec {T : Type} :
    ∀ (l q1 : List T), PipeState.recvNA l.length ⟨q1, l⟩ = (l.map some, ⟨q1, []⟩)
  | [], q1 => rfl
  | v :: vs, q1 => by
    simp [PipeState.recvNA, PipeState.recvA, PipeState.recvNA_spec vs q1]

/-- C8: the pipe pair is cross-wired so that the sender of endpoint A feeds
the receiver of endpoint B and the sender of endpoint B feeds the receiver
of endpoint A, and any sequence of sends on one endpoint is observed by the
receives on the other endpoint as the same sequence in the same order, with
no reordering and no loss. -/
theorem C8_pipe_fifo {T : Type} (xs ys : List T) :
    (PipeState.recvNB xs.length (PipeState.sendAllA ⟨[], []⟩ xs)).fst = xs.map some ∧
    (PipeState.recvNA ys.length (PipeState.sendAllB ⟨[], []⟩ ys)).fst = ys.map some := by
  constructor
  · rw [PipeState.sendAllA_spec]
    simp [PipeState.recvNB_spec]
  · rw [PipeState.sendAllB_spec]
    simp [PipeState.recvNA_spec]

